import Mathlib

/-!
Verification of the uslugiBG backend booking lifecycle engine.

This file gives a shallow embedding of the booking state machine, the
security middleware chain, the dispute handling, the auto-completion
sweeper and the review eligibility gate, translated from the TypeScript
source (controllers/booking/bookingController.ts,
middleware/bookingSecurityChecks.ts, middleware/bookingValidation.ts,
middleware/reviewValidation.ts, controllers/review/reviewController.ts,
jobs/autoCompleteBookings.ts, prisma schema), and proves or refutes the
frozen claims about it.

Modelling conventions:
- Timestamps are integers (milliseconds since the epoch), as in JS Date.
- Monetary amounts and ratings are rationals, standing for the exact
  arithmetic the source expresses (totalPrice * 0.15 and friends).
- Each Express middleware chain is a function returning Except: an
  error value models the middleware sending an HTTP rejection (no state
  is changed in that case), an ok value carries the updated booking and
  the appended history entry.
- The database lookups (booking by id, joined service and provider) are
  modelled by passing the already-joined record; aggregate count queries
  are passed as parameters where they only feed advisory log flags.
-/

namespace UslugiBG

/-- Booking status enum from the prisma schema. -/
inductive BookingStatus
  | pending
  | confirmed
  | in_progress
  | completed
  | cancelled
  | no_show_customer
  | no_show_provider
  | disputed
deriving DecidableEq, Repr

/-- Dispute status enum from the prisma schema. -/
inductive DisputeStatus
  | OPEN
  | RESOLVED_FOR_CUSTOMER
  | RESOLVED_FOR_PROVIDER
  | CLOSED_NO_RESOLUTION
deriving DecidableEq, Repr

/-- One row of the BookingStatusHistory audit table. -/
structure HistoryEntry where
  bookingId : Int
  previousStatus : BookingStatus
  newStatus : BookingStatus
  changedBy : Int
  changedAt : Int
  reason : Option String
deriving DecidableEq, Repr

/-- A Booking record, joined with service.providerId and
service.provider.userId the way the controllers fetch it
(include service.provider). -/
structure Booking where
  id : Int
  serviceId : Int
  providerId : Int
  providerUserId : Int
  customerId : Int
  bookingDate : Int
  status : BookingStatus
  totalPrice : Rat
  updatedAt : Int
  completedByCustomer : Bool
  completedByProvider : Bool
  autoCompletedAt : Option Int
  hasDispute : Bool
  disputeReason : Option String
  disputeStatus : Option DisputeStatus
  disputeResolvedAt : Option Int
  reviewEligible : Bool
  reviewEligibleUntil : Option Int
  cancelledBy : Option Int
  cancellationReason : Option String
  cancellationTime : Option Int
deriving DecidableEq, Repr

/-- An HTTP-level rejection: status code and message. -/
structure Rejection where
  code : Nat
  message : String
deriving DecidableEq, Repr

instance exceptDecEq {ε α : Type} [DecidableEq ε] [DecidableEq α] :
    DecidableEq (Except ε α) := fun x y =>
  match x, y with
  | .error a, .error b =>
    if h : a = b then .isTrue (by rw [h]) else .isFalse (by simp [h])
  | .error _, .ok _ => .isFalse (by simp)
  | .ok _, .error _ => .isFalse (by simp)
  | .ok a, .ok b =>
    if h : a = b then .isTrue (by rw [h]) else .isFalse (by simp [h])

/-- Milliseconds in one hour. -/
def msPerHour : Int := 3600000

/-- Milliseconds in one day. -/
def msPerDay : Int := 86400000

/-- The allowed-transitions edge table of validateStatusTransition
(bookingValidation.ts). -/
def allowedTransitions : BookingStatus → List BookingStatus
  | .pending => [.confirmed, .cancelled]
  | .confirmed => [.in_progress, .cancelled, .no_show_customer, .no_show_provider]
  | .in_progress => [.completed, .disputed]
  | .completed => [.disputed]
  | .cancelled => []
  | .no_show_customer => []
  | .no_show_provider => []
  | .disputed => [.completed]

/-- Request body of a status-change request (PUT /:id/status). -/
structure StatusRequest where
  status : BookingStatus
  statusChangeReason : Option String
deriving DecidableEq, Repr

/-- validateBookingOwnership (bookingSecurityChecks.ts): the actor must
be the provider of the service, the customer of the booking, or an
admin. -/
def validateBookingOwnership (b : Booking) (userId : Int) (isAdmin : Bool) :
    Except Rejection Unit :=
  if b.providerUserId = userId ∨ b.customerId = userId ∨ isAdmin then .ok ()
  else .error ⟨403, "Not authorized to access this booking"⟩

/-- The advisory fraud flags computed by detectManipulationAttempts
(bookingSecurityChecks.ts). `hist` is the booking status history in
descending changedAt order; `recentNoShows` is the count query result
for check 4. `bodyStatus`/`bodyDisputeReason` are the request body
fields the middleware reads. -/
def manipulationFlags (b : Booking) (hist : List HistoryEntry)
    (recentNoShows : Nat) (bodyStatus : Option BookingStatus)
    (bodyDisputeReason : Option String) (userId now : Int) : List String :=
  let isProvider := b.providerUserId = userId
  let isCustomer := b.customerId = userId
  let flags1 :=
    match hist with
    | h0 :: _ :: h2 :: _ =>
      if h0.changedAt - h2.changedAt < 5 * 60000
      then ["rapid_status_changes"] else []
    | _ => []
  let flags2 :=
    if isProvider ∧ b.bookingDate < now ∧
        (bodyStatus = some .cancelled ∨ bodyStatus = some .no_show_customer)
    then ["post_service_provider_cancellation"] else []
  let flags3 :=
    if isCustomer ∧ b.status = .completed ∧ bodyStatus = some .disputed ∧
        bodyDisputeReason = none
    then ["potential_review_avoidance"] else []
  let flags4 :=
    if (bodyStatus = some .no_show_customer ∨ bodyStatus = some .no_show_provider) ∧
        3 ≤ recentNoShows
    then ["repeated_no_show_claims"] else []
  flags1 ++ flags2 ++ flags3 ++ flags4

/-- detectManipulationAttempts (bookingSecurityChecks.ts): all flags are
log-only except post_service_provider_cancellation, which hard-rejects
with 403. A falsy userId (the JS 0) skips the whole detector, matching
the early next() in the source; authenticated ids are the positive
database ids. -/
def detectManipulationAttempts (b : Booking) (hist : List HistoryEntry)
    (recentNoShows : Nat) (bodyStatus : Option BookingStatus)
    (bodyDisputeReason : Option String) (userId now : Int) :
    Except Rejection Unit :=
  if userId = 0 then .ok ()
  else if "post_service_provider_cancellation" ∈
      manipulationFlags b hist recentNoShows bodyStatus bodyDisputeReason userId now
  then .error ⟨403, "Cannot cancel a booking after service date has passed"⟩
  else .ok ()

/-- Penalty fields the cancellation middleware attaches to the request
body (they are notification/billing attachments; the booking update
itself does not persist them). -/
structure PenaltyAttachment where
  providerPenaltyAmount : Option Rat
  customerPenaltyAmount : Option Rat
deriving DecidableEq, Repr

/-- calculateCancellationPenalties (bookingSecurityChecks.ts).
hoursUntilBooking < 24 is expressed exactly as
bookingDate - now < 24 * msPerHour. -/
def calculateCancellationPenalties (b : Booking)
    (bodyStatus : Option BookingStatus) (userId now : Int) :
    PenaltyAttachment :=
  if bodyStatus ≠ some .cancelled then ⟨none, none⟩
  else if b.providerUserId = userId then
    if b.bookingDate - now < 24 * msPerHour then
      ⟨some (b.totalPrice * (15 / 100 : Rat)), none⟩
    else ⟨none, none⟩
  else if b.customerId = userId then
    if b.bookingDate - now < 24 * msPerHour then
      ⟨none, some (b.totalPrice * (10 / 100 : Rat))⟩
    else ⟨none, none⟩
  else ⟨none, none⟩

/-- validateStatusTransition (bookingValidation.ts): edge table plus
role restrictions plus the past-date cancellation block. -/
def validateStatusTransition (b : Booking) (req : StatusRequest)
    (userId now : Int) : Except Rejection Unit :=
  if ¬(b.providerUserId = userId ∨ b.customerId = userId) then
    .error ⟨403, "Not authorized to update this booking"⟩
  else if req.status ∉ allowedTransitions b.status then
    .error ⟨400, "Cannot transition between these statuses"⟩
  else if req.status = .confirmed ∧ ¬(b.providerUserId = userId) then
    .error ⟨403, "Only the service provider can confirm bookings"⟩
  else if req.status = .no_show_customer ∧ ¬(b.providerUserId = userId) then
    .error ⟨403, "Only the service provider can mark customer as no-show"⟩
  else if req.status = .no_show_provider ∧ ¬(b.customerId = userId) then
    .error ⟨403, "Only the customer can mark provider as no-show"⟩
  else if req.status = .cancelled ∧ b.bookingDate < now then
    .error ⟨400, "Cannot cancel booking after service date has passed"⟩
  else .ok ()

/-- updateBookingStatus (bookingController.ts): the accepted update,
with the cancellation bookkeeping fields and the history row. The
updatedAt bump models the prisma updatedAt behaviour. -/
def updateBookingStatus (b : Booking) (req : StatusRequest)
    (userId now : Int) : Booking × HistoryEntry :=
  let b2 : Booking :=
    { b with
      status := req.status
      updatedAt := now
      cancelledBy := if req.status = .cancelled then some userId else b.cancelledBy
      cancellationTime := if req.status = .cancelled then some now else b.cancellationTime
      cancellationReason :=
        if req.status = .cancelled then req.statusChangeReason else b.cancellationReason }
  (b2, ⟨b.id, b.status, req.status, userId, now, req.statusChangeReason⟩)

/-- The full PUT /:id/status middleware chain (routes/booking.ts):
ownership, manipulation detection, penalty calculation, transition
validation, then the controller update. -/
def updateStatusPipeline (b : Booking) (hist : List HistoryEntry)
    (recentNoShows : Nat) (req : StatusRequest) (userId : Int)
    (isAdmin : Bool) (now : Int) :
    Except Rejection (Booking × HistoryEntry × PenaltyAttachment) :=
  match validateBookingOwnership b userId isAdmin with
  | .error e => .error e
  | .ok _ =>
    match detectManipulationAttempts b hist recentNoShows (some req.status)
        req.statusChangeReason userId now with
    | .error e => .error e
    | .ok _ =>
      let pen := calculateCancellationPenalties b (some req.status) userId now
      match validateStatusTransition b req userId now with
      | .error e => .error e
      | .ok _ =>
        let res := updateBookingStatus b req userId now
        .ok (res.1, res.2, pen)

/-- Request body of a completion-marking request (PUT /:id/complete). -/
structure CompletionRequest where
  completedByCustomer : Option Bool
  completedByProvider : Option Bool
deriving DecidableEq, Repr

/-- validateCompletionMarking (bookingValidation.ts): only the matching
role may send its own flag; the body-status enrichment it performs is
ignored by the controller, so only its rejections are modelled. -/
def validateCompletionMarking (b : Booking) (req : CompletionRequest)
    (userId : Int) : Except Rejection Unit :=
  if req.completedByCustomer = none ∧ req.completedByProvider = none then .ok ()
  else if req.completedByCustomer ≠ none ∧ ¬(b.customerId = userId) then
    .error ⟨403, "Only the customer can mark booking as completed by customer"⟩
  else if req.completedByProvider ≠ none ∧ ¬(b.providerUserId = userId) then
    .error ⟨403, "Only the provider can mark booking as completed by provider"⟩
  else .ok ()

/-- The completedByCustomer value markBookingCompletion writes: the
customer role sets its own flag (if isCustomer, updateData sets it). -/
def completionNewCbc (b : Booking) (userId : Int) : Bool :=
  if b.customerId = userId then true else b.completedByCustomer

/-- The completedByProvider value markBookingCompletion writes: the
provider role sets its own flag (else-if branch of the controller). -/
def completionNewCbp (b : Booking) (userId : Int) : Bool :=
  if b.customerId = userId then b.completedByProvider
  else if b.providerUserId = userId then true else b.completedByProvider

/-- The bothComplete test of markBookingCompletion: the requesting role
completes while the opposite flag is already set. -/
def completionBothComplete (b : Booking) (userId : Int) : Prop :=
  (b.customerId = userId ∧ b.completedByProvider = true) ∨
  (b.providerUserId = userId ∧ b.completedByCustomer = true)

instance (b : Booking) (userId : Int) :
    Decidable (completionBothComplete b userId) := by
  unfold completionBothComplete
  infer_instance

/-- markBookingCompletion (bookingController.ts): sets the flag of the
requesting role, and when both flags are then true also completes the
booking, opens the 14-day review window and appends the combined
history entry. -/
def markBookingCompletion (b : Booking) (userId now : Int) :
    Except Rejection (Booking × Option HistoryEntry) :=
  if ¬(b.providerUserId = userId ∨ b.customerId = userId) then
    .error ⟨403, "Not authorized to update this booking"⟩
  else if completionBothComplete b userId then
    .ok ({ b with
            completedByCustomer := completionNewCbc b userId
            completedByProvider := completionNewCbp b userId
            status := .completed
            reviewEligible := true
            reviewEligibleUntil := some (now + 14 * msPerDay)
            updatedAt := now },
      some ⟨b.id, b.status, .completed, userId, now,
        some "Both parties marked as complete"⟩)
  else
    .ok ({ b with
            completedByCustomer := completionNewCbc b userId
            completedByProvider := completionNewCbp b userId
            updatedAt := now },
      none)

/-- The full PUT /:id/complete middleware chain (routes/booking.ts):
ownership, manipulation detection (whose request body carries no status
field), completion validation, then the controller. -/
def completionPipeline (b : Booking) (hist : List HistoryEntry)
    (recentNoShows : Nat) (req : CompletionRequest) (userId : Int)
    (isAdmin : Bool) (now : Int) :
    Except Rejection (Booking × Option HistoryEntry) :=
  match validateBookingOwnership b userId isAdmin with
  | .error e => .error e
  | .ok _ =>
    match detectManipulationAttempts b hist recentNoShows none none userId now with
    | .error e => .error e
    | .ok _ =>
      match validateCompletionMarking b req userId with
      | .error e => .error e
      | .ok _ => markBookingCompletion b userId now

/-- Request body of a dispute-creation request (POST /:id/dispute). -/
structure DisputeRequest where
  hasDispute : Option Bool
  disputeReason : Option String
deriving DecidableEq, Repr

/-- validateDisputeCreation (bookingValidation.ts). Note the skip at
the top: when the body carries no hasDispute field the middleware
passes the request through without any of its checks. -/
def validateDisputeCreation (b : Booking) (req : DisputeRequest)
    (userId : Int) : Except Rejection Unit :=
  match req.hasDispute with
  | none => .ok ()
  | some false => .error ⟨400, "Cannot remove a dispute once created"⟩
  | some true =>
    if req.disputeReason = none ∨ req.disputeReason = some "" then
      .error ⟨400, "Dispute reason is required"⟩
    else if ¬(b.providerUserId = userId ∨ b.customerId = userId) then
      .error ⟨403, "Not authorized to create a dispute for this booking"⟩
    else if b.status ≠ .completed ∧ b.status ≠ .in_progress then
      .error ⟨400, "Can only create disputes for completed or in-progress bookings"⟩
    else .ok ()

/-- handleDispute (bookingController.ts): unconditionally records the
dispute and moves the booking to disputed. A missing disputeReason in
the body leaves the stored reason unchanged (prisma undefined). The
source interpolates the reason into the history text; the text is
abbreviated here since no claim inspects it. -/
def handleDispute (b : Booking) (req : DisputeRequest) (userId now : Int) :
    Booking × HistoryEntry :=
  ({ b with
      hasDispute := true
      disputeReason := match req.disputeReason with
        | some r => some r
        | none => b.disputeReason
      disputeStatus := some .OPEN
      status := .disputed
      updatedAt := now },
    ⟨b.id, b.status, .disputed, userId, now, some "Dispute created"⟩)

/-- The full POST /:id/dispute middleware chain (routes/booking.ts). -/
def disputePipeline (b : Booking) (hist : List HistoryEntry)
    (recentNoShows : Nat) (req : DisputeRequest) (userId : Int)
    (isAdmin : Bool) (now : Int) :
    Except Rejection (Booking × HistoryEntry) :=
  match validateBookingOwnership b userId isAdmin with
  | .error e => .error e
  | .ok _ =>
    match detectManipulationAttempts b hist recentNoShows none
        req.disputeReason userId now with
    | .error e => .error e
    | .ok _ =>
      match validateDisputeCreation b req userId with
      | .error e => .error e
      | .ok _ => .ok (handleDispute b req userId now)

/-- Parsing of the resolution body field against the DisputeStatus enum
(Object.values(DisputeStatus).includes(resolution)). -/
def parseDisputeStatus : String → Option DisputeStatus
  | "OPEN" => some .OPEN
  | "RESOLVED_FOR_CUSTOMER" => some .RESOLVED_FOR_CUSTOMER
  | "RESOLVED_FOR_PROVIDER" => some .RESOLVED_FOR_PROVIDER
  | "CLOSED_NO_RESOLUTION" => some .CLOSED_NO_RESOLUTION
  | _ => none

/-- The new booking status resolveDispute derives from the
resolution: resolved_for_* completes, closed_no_resolution cancels,
the remaining value (OPEN) keeps disputed. -/
def resolutionNewStatus (res : DisputeStatus) : BookingStatus :=
  if res = .RESOLVED_FOR_CUSTOMER ∨ res = .RESOLVED_FOR_PROVIDER then
    .completed
  else if res = .CLOSED_NO_RESOLUTION then .cancelled
  else .disputed

/-- The reviewEligible value resolveDispute derives from the
resolution. -/
def resolutionReviewEligible (res : DisputeStatus) : Bool :=
  res = .RESOLVED_FOR_CUSTOMER ∨ res = .RESOLVED_FOR_PROVIDER

/-- resolveDispute (bookingController.ts): admin gate, resolution enum
validation, active-dispute check, then the resolution-dependent status
update with history row. The source interpolates resolutionNotes into
the history text; the text is abbreviated here since no claim inspects
it. -/
def resolveDispute (b : Booking) (resolution : Option String)
    (userId : Option Int) (isAdmin : Bool) (now : Int) :
    Except Rejection (Booking × HistoryEntry) :=
  if ¬isAdmin then .error ⟨403, "Only administrators can resolve disputes"⟩
  else
    match resolution.bind parseDisputeStatus with
    | none => .error ⟨400, "Valid resolution status is required"⟩
    | some res =>
      if ¬b.hasDispute then
        .error ⟨400, "This booking has no active dispute"⟩
      else
        .ok ({ b with
                disputeStatus := some res
                disputeResolvedAt := some now
                status := resolutionNewStatus res
                reviewEligible := resolutionReviewEligible res
                reviewEligibleUntil :=
                  if resolutionReviewEligible res then
                    some (now + 14 * msPerDay)
                  else b.reviewEligibleUntil
                updatedAt := now },
          ⟨b.id, b.status, resolutionNewStatus res, userId.getD 0, now,
            some "Dispute resolved"⟩)

/-- The booking store as the sweeper sees it: the booking table plus
the append-only status history table. -/
structure BookingStore where
  bookings : List Booking
  history : List HistoryEntry
deriving DecidableEq, Repr

/-- The findMany selection predicate of autoCompleteBookings
(jobs/autoCompleteBookings.ts): in_progress, stale for more than 72
hours, and exactly one completion flag set. -/
def sweepSelected (now : Int) (b : Booking) : Bool :=
  b.status = .in_progress ∧ b.updatedAt < now - 72 * msPerHour ∧
    ((b.completedByCustomer = true ∧ b.completedByProvider = false) ∨
     (b.completedByCustomer = false ∧ b.completedByProvider = true))

/-- The per-booking update of autoCompleteBookings. -/
def autoCompleteUpdate (now : Int) (b : Booking) : Booking :=
  { b with
      status := .completed
      completedByCustomer := true
      completedByProvider := true
      autoCompletedAt := some now
      reviewEligible := true
      reviewEligibleUntil := some (now + 14 * msPerDay)
      updatedAt := now }

/-- The history row autoCompleteBookings appends for each booking it
completes: actor 0 is the system. -/
def autoCompleteHistoryEntry (now : Int) (b : Booking) : HistoryEntry :=
  ⟨b.id, .in_progress, .completed, 0, now, some "Auto-completed after 72 hours"⟩

/-- One failure-free sweep run of autoCompleteBookings: every selected
booking is updated and gets its history row. -/
def autoCompleteBookings (now : Int) (st : BookingStore) : BookingStore :=
  { bookings := st.bookings.map
      (fun b => if sweepSelected now b then autoCompleteUpdate now b else b)
    history := st.history ++
      ((st.bookings.filter (sweepSelected now)).map (autoCompleteHistoryEntry now)) }

/-- Applies the sweep update for one booking id inside the store. -/
def sweepApplyOne (now : Int) (st : BookingStore) (b : Booking) : BookingStore :=
  { bookings := st.bookings.map
      (fun x => if x.id = b.id then autoCompleteUpdate now x else x)
    history := st.history ++ [autoCompleteHistoryEntry now b] }

/-- Processes a list of selected bookings in order, stopping at the
first one whose store update fails: in the source the whole for loop
lives inside one try/catch, so a rejected update aborts the remaining
iterations and is swallowed by the catch (logged, never rethrown). -/
def sweepProcess (now : Int) (updateFails : Int → Bool) :
    List Booking → BookingStore → BookingStore
  | [], st => st
  | b :: rest, st =>
    if updateFails b.id then st
    else sweepProcess now updateFails rest (sweepApplyOne now st b)

/-- autoCompleteBookings with a fallible store: the selected bookings
are processed in order until the first failing update; the function
always returns normally (the catch swallows every error). -/
def autoCompleteBookingsTryCatch (now : Int) (updateFails : Int → Bool)
    (st : BookingStore) : BookingStore :=
  sweepProcess now updateFails (st.bookings.filter (sweepSelected now)) st

/-- A review row (prisma Review model: bookingId is unique). -/
structure Review where
  bookingId : Int
  rating : Rat
  comment : Option String
  createdAt : Int
deriving DecidableEq, Repr

/-- A provider profile row, reduced to the aggregate-rating field the
review flow updates. -/
structure ProviderProfile where
  id : Int
  rating : Option Rat
deriving DecidableEq, Repr

/-- The store the review flow touches. -/
structure ReviewStore where
  bookings : List Booking
  reviews : List Review
  providers : List ProviderProfile
deriving DecidableEq, Repr

/-- Request body of POST /api/reviews. -/
structure ReviewRequest where
  bookingId : Option Int
  rating : Option Rat
  comment : Option String
deriving DecidableEq, Repr

/-- validateReviewInput (reviewValidation.ts): rating required and in
[1,5], comment at most 1000 characters; the sanitized body carries the
trimmed comment (empty or missing comment becomes null). -/
def validateReviewInput (req : ReviewRequest) :
    Except Rejection (Rat × Option String) :=
  match req.rating with
  | none => .error ⟨400, "Rating is required"⟩
  | some r =>
    if r < 1 ∨ 5 < r then
      .error ⟨400, "Rating must be between 1 and 5"⟩
    else
      match req.comment with
      | some c =>
        if 1000 < c.length then
          .error ⟨400, "Comment cannot exceed 1000 characters"⟩
        else if c = "" then .ok (r, none)
        else .ok (r, some c.trim)
      | none => .ok (r, none)

/-- validateReviewEligibility (reviewValidation.ts): requester must be
the customer of a completed, review-eligible booking whose window has
not expired and which has no review yet. -/
def validateReviewEligibility (st : ReviewStore) (req : ReviewRequest)
    (userId now : Int) : Except Rejection Booking :=
  match req.bookingId with
  | none => .error ⟨400, "Booking ID is required"⟩
  | some bid =>
    match st.bookings.find? (fun b => b.id = bid) with
    | none => .error ⟨404, "Booking not found"⟩
    | some b =>
      if b.customerId ≠ userId then
        .error ⟨403, "Only the customer can leave a review"⟩
      else if b.status ≠ .completed then
        .error ⟨400, "Can only review completed bookings"⟩
      else if b.reviewEligible = false then
        .error ⟨400, "This booking is not eligible for review"⟩
      else if b.reviewEligibleUntil.elim false (fun u => decide (u < now)) then
        .error ⟨400, "Review period has expired for this booking"⟩
      else if (st.reviews.find? (fun r => r.bookingId = bid)).isSome then
        .error ⟨400, "A review already exists for this booking"⟩
      else .ok b

/-- The number of reviews by this customer in the trailing 10 minutes
(the review-flooding count of detectReviewManipulation). -/
def countRecentReviews (st : ReviewStore) (userId now : Int) : Nat :=
  (st.reviews.filter (fun r =>
    (st.bookings.find? (fun b => b.id = r.bookingId)).elim false
      (fun b => b.customerId = userId) ∧ now - 10 * 60000 ≤ r.createdAt)).length

/-- detectReviewManipulation (reviewValidation.ts): at least 5 reviews
in the last 10 minutes hard-rejects with 429; the drastic-rating check
only flags for moderation and never blocks. -/
def detectReviewManipulation (st : ReviewStore) (req : ReviewRequest)
    (userId now : Int) : Except Rejection Unit :=
  if req.bookingId = none then .ok ()
  else if 5 ≤ countRecentReviews st userId now then
    .error ⟨429, "Too many reviews submitted recently"⟩
  else .ok ()

/-- The reviews belonging to a provider, joined through the bookings of
that provider (reviews where booking.service.providerId = providerId). -/
def providerReviews (st : ReviewStore) (pid : Int) : List Review :=
  st.reviews.filter (fun r =>
    (st.bookings.find? (fun b => b.id = r.bookingId)).elim false
      (fun b => b.providerId = pid))

/-- createReview (reviewController.ts): inserts the review, then
recomputes the provider rating as sum of all that providers review
ratings divided by their count (the new review included) and persists
it on the provider profile. -/
def createReview (st : ReviewStore) (b : Booking) (rating : Rat)
    (comment : Option String) (now : Int) : ReviewStore :=
  let st2 : ReviewStore :=
    { st with reviews := st.reviews ++ [⟨b.id, rating, comment, now⟩] }
  let revs := providerReviews st2 b.providerId
  let avgRating := (revs.map Review.rating).sum / (revs.length : Rat)
  let newProviders := st2.providers.map
    (fun p => if p.id = b.providerId then { p with rating := some avgRating } else p)
  { st2 with providers := newProviders }

/-- The full POST /api/reviews chain (routes/review.ts): input
validation, eligibility gate, manipulation detection, then creation. -/
def createReviewPipeline (st : ReviewStore) (req : ReviewRequest)
    (userId now : Int) : Except Rejection ReviewStore :=
  match validateReviewInput req with
  | .error e => .error e
  | .ok rc =>
    match validateReviewEligibility st req userId now with
    | .error e => .error e
    | .ok b =>
      match detectReviewManipulation st req userId now with
      | .error e => .error e
      | .ok _ => .ok (createReview st b rc.1 rc.2 now)

/-- Booking type enum of a service (prisma BookingType). -/
inductive BookingType
  | DIRECT
  | INQUIRY
deriving DecidableEq, Repr

/-- A service row joined with its provider, as createBooking fetches
it. -/
structure ServiceRec where
  id : Int
  providerId : Int
  providerUserId : Int
  bookingType : BookingType
  price : Rat
deriving DecidableEq, Repr

/-- Request body of POST /api/bookings. -/
structure CreateBookingRequest where
  serviceId : Option Int
  bookingDate : Option Int
  totalPrice : Option Rat
deriving DecidableEq, Repr

/-- createBooking (bookingController.ts): field validation, service
lookup, the own-service guard, future-date check, then creation in
pending or confirmed depending on the booking type, with the initial
history row. -/
def createBooking (services : List ServiceRec) (req : CreateBookingRequest)
    (customerId : Option Int) (now : Int) :
    Except Rejection (Booking × HistoryEntry) :=
  match customerId with
  | none => .error ⟨401, "Authentication required"⟩
  | some uid =>
    match req.serviceId, req.bookingDate with
    | none, _ => .error ⟨400, "Service ID and booking date are required"⟩
    | some _, none => .error ⟨400, "Service ID and booking date are required"⟩
    | some sid, some date =>
      match services.find? (fun s => s.id = sid) with
      | none => .error ⟨404, "Service not found"⟩
      | some s =>
        if s.providerUserId = uid then
          .error ⟨400, "Cannot book your own service"⟩
        else if date ≤ now then
          .error ⟨400, "Booking date must be in the future"⟩
        else
          let initialStatus : BookingStatus :=
            if s.bookingType = .DIRECT then .confirmed else .pending
          let price := match req.totalPrice with
            | some p => if p = 0 then s.price else p
            | none => s.price
          .ok ({ id := 0, serviceId := sid, providerId := s.providerId,
                 providerUserId := s.providerUserId, customerId := uid,
                 bookingDate := date, status := initialStatus,
                 totalPrice := price, updatedAt := now,
                 completedByCustomer := false, completedByProvider := false,
                 autoCompletedAt := none, hasDispute := false,
                 disputeReason := none, disputeStatus := none,
                 disputeResolvedAt := none, reviewEligible := false,
                 reviewEligibleUntil := none, cancelledBy := none,
                 cancellationReason := none, cancellationTime := none },
            ⟨0, .pending, initialStatus, uid, now, some "Booking created"⟩)

/-- A concrete confirmed booking used by the witnesses: provider user
20, customer 10, price 100, bookingDate at 1000000 ms. -/
def demoBooking : Booking :=
  { id := 1, serviceId := 2, providerId := 3, providerUserId := 20,
    customerId := 10, bookingDate := 1000000, status := .confirmed,
    totalPrice := 100, updatedAt := 0,
    completedByCustomer := false, completedByProvider := false,
    autoCompletedAt := none, hasDispute := false, disputeReason := none,
    disputeStatus := none, disputeResolvedAt := none,
    reviewEligible := false, reviewEligibleUntil := none,
    cancelledBy := none, cancellationReason := none,
    cancellationTime := none }

/-- Claim C6: on a cancellation request by a party to the booking, a
provider cancelling with less than 24 hours until bookingDate gets
providerPenaltyAmount = totalPrice * 0.15 attached, a customer in the
same window gets customerPenaltyAmount = totalPrice * 0.10, and with
24 hours or more remaining no penalty is attached. -/
theorem calculateCancellationPenalties_spec (b : Booking) (userId now : Int) :
    (b.providerUserId = userId →
      (b.bookingDate - now < 24 * msPerHour →
        calculateCancellationPenalties b (some .cancelled) userId now =
          ⟨some (b.totalPrice * (15 / 100 : Rat)), none⟩) ∧
      (24 * msPerHour ≤ b.bookingDate - now →
        calculateCancellationPenalties b (some .cancelled) userId now =
          ⟨none, none⟩))
  ∧ (b.providerUserId ≠ userId → b.customerId = userId →
      (b.bookingDate - now < 24 * msPerHour →
        calculateCancellationPenalties b (some .cancelled) userId now =
          ⟨none, some (b.totalPrice * (10 / 100 : Rat))⟩) ∧
      (24 * msPerHour ≤ b.bookingDate - now →
        calculateCancellationPenalties b (some .cancelled) userId now =
          ⟨none, none⟩)) := by
  constructor
  · intro hp
    constructor
    · intro hlt
      simp [calculateCancellationPenalties, hp, hlt]
    · intro hge
      simp [calculateCancellationPenalties, hp, not_lt.mpr hge]
  · intro hnp hc
    constructor
    · intro hlt
      simp [calculateCancellationPenalties, hnp, hc, hlt]
    · intro hge
      simp [calculateCancellationPenalties, hnp, hc, not_lt.mpr hge]

/-- Witness for C6 at a concrete input: the demo provider cancels 1000
seconds before the booking and is charged 15 percent of 100. -/
theorem calculateCancellationPenalties_spec_witness :
    demoBooking.providerUserId = 20 ∧
    demoBooking.bookingDate - 0 < 24 * msPerHour ∧
    calculateCancellationPenalties demoBooking (some .cancelled) 20 0 =
      ⟨some (demoBooking.totalPrice * (15 / 100 : Rat)), none⟩ :=
  ⟨by decide, by decide,
    ((calculateCancellationPenalties_spec demoBooking 20 0).1 (by decide)).1
      (by decide)⟩

/-- Claim C2: a status-change request by the provider of a booking
whose bookingDate is already in the past, asking for cancelled or
no_show_customer, is always rejected with 403 by the manipulation
detector (a rejected pipeline performs no booking update), whatever
the other fields, flags and counts are. -/
theorem postServiceProviderCancellation_rejected (b : Booking)
    (hist : List HistoryEntry) (recentNoShows : Nat) (req : StatusRequest)
    (userId : Int) (isAdmin : Bool) (now : Int)
    (huid : userId ≠ 0)
    (hprov : b.providerUserId = userId) (hpast : b.bookingDate < now)
    (hstatus : req.status = .cancelled ∨ req.status = .no_show_customer) :
    updateStatusPipeline b hist recentNoShows req userId isAdmin now =
      .error ⟨403, "Cannot cancel a booking after service date has passed"⟩ := by
  have hmem : "post_service_provider_cancellation" ∈
      manipulationFlags b hist recentNoShows (some req.status)
        req.statusChangeReason userId now := by
    unfold manipulationFlags
    have hcond : b.providerUserId = userId ∧ b.bookingDate < now ∧
        (some req.status = some BookingStatus.cancelled ∨
         some req.status = some BookingStatus.no_show_customer) := by
      refine ⟨hprov, hpast, ?_⟩
      rcases hstatus with h | h
      · exact Or.inl (by rw [h])
      · exact Or.inr (by rw [h])
    simp only [hcond, if_true, List.mem_append, List.mem_singleton]
    tauto
  have hdet : detectManipulationAttempts b hist recentNoShows
      (some req.status) req.statusChangeReason userId now =
      .error ⟨403, "Cannot cancel a booking after service date has passed"⟩ := by
    unfold detectManipulationAttempts
    rw [if_neg huid, if_pos hmem]
  have hown : validateBookingOwnership b userId isAdmin = .ok () := by
    unfold validateBookingOwnership
    rw [if_pos (Or.inl hprov)]
  unfold updateStatusPipeline
  rw [hown, hdet]

/-- Witness for C2: the demo provider asks for cancelled at a time
after the booking date and is rejected with 403. -/
theorem postServiceProviderCancellation_rejected_witness :
    demoBooking.providerUserId = 20 ∧ demoBooking.bookingDate < 2000000 ∧
    updateStatusPipeline demoBooking [] 0 ⟨.cancelled, none⟩ 20 false 2000000 =
      .error ⟨403, "Cannot cancel a booking after service date has passed"⟩ :=
  ⟨by decide, by decide,
    postServiceProviderCancellation_rejected demoBooking [] 0
      ⟨.cancelled, none⟩ 20 false 2000000 (by decide) (by decide) (by decide)
      (Or.inl rfl)⟩

/-- Claim C10: when the authenticated customer owns the provider
profile of the requested service, createBooking answers with a 400
validation error and produces no booking (an error result is exactly
the no-creation case in this embedding). -/
theorem createBooking_ownService_rejected (services : List ServiceRec)
    (req : CreateBookingRequest) (uid now sid : Int) (s : ServiceRec)
    (hsid : req.serviceId = some sid)
    (hfind : services.find? (fun s => s.id = sid) = some s)
    (hown : s.providerUserId = uid) :
    ∃ msg, createBooking services req (some uid) now = .error ⟨400, msg⟩ := by
  unfold createBooking
  rw [hsid]
  cases hdate : req.bookingDate with
  | none => exact ⟨"Service ID and booking date are required", rfl⟩
  | some date =>
    refine ⟨"Cannot book your own service", ?_⟩
    simp [hfind, hown]

/-- A concrete service owned by user 20, used by the C10 witness. -/
def demoService : ServiceRec :=
  { id := 2, providerId := 3, providerUserId := 20,
    bookingType := .DIRECT, price := 100 }

/-- Witness for C10: user 20 tries to book their own service 2 and gets
a 400 rejection. -/
theorem createBooking_ownService_rejected_witness :
    (⟨some 2, some 5000, none⟩ : CreateBookingRequest).serviceId = some 2 ∧
    [demoService].find? (fun s => s.id = 2) = some demoService ∧
    demoService.providerUserId = 20 ∧
    ∃ msg, createBooking [demoService] ⟨some 2, some 5000, none⟩ (some 20) 0 =
      .error ⟨400, msg⟩ :=
  ⟨by decide, by decide, by decide,
    createBooking_ownService_rejected [demoService] ⟨some 2, some 5000, none⟩
      20 0 2 demoService (by decide) (by decide) (by decide)⟩

/-- Helper: an accepted completion request reaches the controller, so
the pipeline result is the controller result. -/
theorem completionPipeline_ok_mark (b : Booking) (hist : List HistoryEntry)
    (recentNoShows : Nat) (req : CompletionRequest) (userId : Int)
    (isAdmin : Bool) (now : Int) (out : Booking × Option HistoryEntry)
    (hok : completionPipeline b hist recentNoShows req userId isAdmin now =
      .ok out) :
    markBookingCompletion b userId now = .ok out := by
  unfold completionPipeline at hok
  split at hok
  · simp at hok
  · split at hok
    · simp at hok
    · split at hok
      · simp at hok
      · exact hok

/-- Claim C3: an accepted completion marking that leaves both
completion flags true also completes the booking, opens the 14-day
review window and appends exactly the one combined history entry; an
accepted marking after which only one flag is true leaves status and
the review window untouched and appends nothing. The booking parties
are distinct, as createBooking guarantees. -/
theorem markBookingCompletion_spec (b : Booking) (hist : List HistoryEntry)
    (recentNoShows : Nat) (req : CompletionRequest) (userId : Int)
    (isAdmin : Bool) (now : Int) (b2 : Booking) (entry : Option HistoryEntry)
    (hparties : b.providerUserId ≠ b.customerId)
    (hok : completionPipeline b hist recentNoShows req userId isAdmin now =
      .ok (b2, entry)) :
    (b2.completedByCustomer = true ∧ b2.completedByProvider = true →
        b2.status = .completed ∧ b2.reviewEligible = true ∧
        b2.reviewEligibleUntil = some (now + 14 * msPerDay) ∧
        entry = some ⟨b.id, b.status, .completed, userId, now,
          some "Both parties marked as complete"⟩)
  ∧ (¬(b2.completedByCustomer = true ∧ b2.completedByProvider = true) →
        b2.status = b.status ∧ b2.reviewEligible = b.reviewEligible ∧
        b2.reviewEligibleUntil = b.reviewEligibleUntil ∧ entry = none) := by
  have hmark := completionPipeline_ok_mark b hist recentNoShows req userId
    isAdmin now (b2, entry) hok
  unfold markBookingCompletion at hmark
  split at hmark
  · simp at hmark
  next hrole =>
    rw [not_not] at hrole
    split at hmark
    next hboth =>
      rw [Except.ok.injEq, Prod.mk.injEq] at hmark
      obtain ⟨hb2, hentry⟩ := hmark
      subst hb2
      subst hentry
      constructor
      · intro _
        refine ⟨rfl, rfl, rfl, rfl⟩
      · intro hpost
        exfalso
        apply hpost
        rcases hboth with ⟨hcust, hcbp⟩ | ⟨hprovR, hcbc⟩
        · constructor
          · simp [completionNewCbc, hcust]
          · simp [completionNewCbp, hcust, hcbp]
        · have hncust : ¬(b.customerId = userId) := by
            intro hcust
            exact hparties (hprovR.trans hcust.symm)
          constructor
          · simp [completionNewCbc, hncust, hcbc]
          · simp [completionNewCbp, hncust, hprovR]
    next hnboth =>
      rw [Except.ok.injEq, Prod.mk.injEq] at hmark
      obtain ⟨hb2, hentry⟩ := hmark
      subst hb2
      subst hentry
      constructor
      · intro hpost
        exfalso
        apply hnboth
        unfold completionBothComplete
        by_cases hcust : b.customerId = userId
        · refine Or.inl ⟨hcust, ?_⟩
          have h2 := hpost.2
          simpa [completionNewCbp, hcust] using h2
        · have hprovR : b.providerUserId = userId := by
            rcases hrole with h | h
            · exact h
            · exact absurd h hcust
          refine Or.inr ⟨hprovR, ?_⟩
          have h1 := hpost.1
          simpa [completionNewCbc, hcust] using h1
      · intro _
        refine ⟨rfl, rfl, rfl, rfl⟩

/-- A booking where the provider has already marked completion, used by
the C3 witness. -/
def demoBookingProviderDone : Booking :=
  { demoBooking with status := .in_progress, completedByProvider := true }

/-- The booking state after the C3 witness operation. -/
def demoBookingBothDone : Booking :=
  { demoBookingProviderDone with
      completedByCustomer := true
      status := .completed
      reviewEligible := true
      reviewEligibleUntil := some (500 + 14 * msPerDay)
      updatedAt := 500 }

/-- The combined history entry of the C3 witness operation. -/
def demoBothCompleteEntry : HistoryEntry :=
  ⟨1, .in_progress, .completed, 10, 500, some "Both parties marked as complete"⟩

/-- Witness for C3: customer 10 marks completion on a booking the
provider already marked; both flags end true and the booking completes
with the combined history entry. -/
theorem markBookingCompletion_spec_witness :
    demoBookingProviderDone.providerUserId ≠ demoBookingProviderDone.customerId ∧
    completionPipeline demoBookingProviderDone [] 0 ⟨some true, none⟩ 10 false 500 =
      .ok (demoBookingBothDone, some demoBothCompleteEntry) ∧
    demoBookingBothDone.status = .completed ∧
    demoBookingBothDone.reviewEligible = true := by
  refine ⟨by decide, by decide, ?_⟩
  have h := markBookingCompletion_spec demoBookingProviderDone [] 0
    ⟨some true, none⟩ 10 false 500 demoBookingBothDone
    (some demoBothCompleteEntry) (by decide) (by decide)
  have h2 := h.1 (by decide)
  exact ⟨h2.1, h2.2.1⟩

/-- Helper: an accepted status-change request passed the transition
validator, and the result booking is the controller update. -/
theorem updateStatusPipeline_ok_parts (b : Booking) (hist : List HistoryEntry)
    (recentNoShows : Nat) (req : StatusRequest) (userId : Int)
    (isAdmin : Bool) (now : Int)
    (out : Booking × HistoryEntry × PenaltyAttachment)
    (hok : updateStatusPipeline b hist recentNoShows req userId isAdmin now =
      .ok out) :
    validateStatusTransition b req userId now = .ok () ∧
    out.1 = (updateBookingStatus b req userId now).1 := by
  unfold updateStatusPipeline at hok
  split at hok
  · simp at hok
  · split at hok
    · simp at hok
    · split at hok
      · simp at hok
      next u heq =>
        rw [Except.ok.injEq] at hok
        subst hok
        exact ⟨by cases u; exact heq, rfl⟩

/-- Helper: an accepted status transition is on the edge table. -/
theorem validateStatusTransition_ok_edge (b : Booking) (req : StatusRequest)
    (userId now : Int)
    (h : validateStatusTransition b req userId now = .ok ()) :
    req.status ∈ allowedTransitions b.status := by
  unfold validateStatusTransition at h
  split_ifs at h with h1 h2 h3 h4 h5 h6
  exact h2

/-- Helper: an accepted dispute request reaches the controller after
passing (or skipping) validateDisputeCreation. -/
theorem disputePipeline_ok_parts (b : Booking) (hist : List HistoryEntry)
    (recentNoShows : Nat) (req : DisputeRequest) (userId : Int)
    (isAdmin : Bool) (now : Int) (out : Booking × HistoryEntry)
    (hok : disputePipeline b hist recentNoShows req userId isAdmin now =
      .ok out) :
    validateDisputeCreation b req userId = .ok () ∧
    out = handleDispute b req userId now := by
  unfold disputePipeline at hok
  split at hok
  · simp at hok
  · split at hok
    · simp at hok
    · split at hok
      · simp at hok
      next u heq =>
        rw [Except.ok.injEq] at hok
        exact ⟨by cases u; exact heq, hok.symm⟩

/-- Claim C1 (amended): accepted status-change requests move only along
the section 4.1 edge table; an accepted completion marking either
leaves status unchanged or sets it to completed, which can leave a
terminal status when the counterpart flag was already set; an accepted
dispute creation always sets status to disputed, and only when the
request body carries hasDispute = true is the source status guaranteed
to be completed or in_progress (a body without the hasDispute field
bypasses the dispute validator). -/
theorem interactiveTransitions_amended (b : Booking) (hist : List HistoryEntry)
    (recentNoShows : Nat) (userId : Int) (isAdmin : Bool) (now : Int) :
    (∀ req out,
        updateStatusPipeline b hist recentNoShows req userId isAdmin now =
          .ok out →
        out.1.status ∈ allowedTransitions b.status)
  ∧ (∀ req out,
        completionPipeline b hist recentNoShows req userId isAdmin now =
          .ok out →
        out.1.status = b.status ∨ out.1.status = .completed)
  ∧ (∀ req out,
        disputePipeline b hist recentNoShows req userId isAdmin now =
          .ok out →
        out.1.status = .disputed ∧
        (req.hasDispute = some true →
          b.status = .completed ∨ b.status = .in_progress)) := by
  refine ⟨?_, ?_, ?_⟩
  · intro req out hok
    obtain ⟨hval, hout⟩ := updateStatusPipeline_ok_parts b hist recentNoShows
      req userId isAdmin now out hok
    rw [hout]
    have hstat : (updateBookingStatus b req userId now).1.status = req.status := rfl
    rw [hstat]
    exact validateStatusTransition_ok_edge b req userId now hval
  · intro req out hok
    have hmark := completionPipeline_ok_mark b hist recentNoShows req userId
      isAdmin now out hok
    unfold markBookingCompletion at hmark
    split at hmark
    · simp at hmark
    · split at hmark
      · rw [Except.ok.injEq] at hmark
        subst hmark
        exact Or.inr rfl
      · rw [Except.ok.injEq] at hmark
        subst hmark
        exact Or.inl rfl
  · intro req out hok
    obtain ⟨hval, hout⟩ := disputePipeline_ok_parts b hist recentNoShows
      req userId isAdmin now out hok
    constructor
    · rw [hout]
      rfl
    · intro hd
      unfold validateDisputeCreation at hval
      rw [hd] at hval
      split_ifs at hval with h1 h2 h3
      rcases not_and_or.mp h3 with h | h
      · exact Or.inl (not_not.mp h)
      · exact Or.inr (not_not.mp h)

/-- A cancelled booking on which the provider already marked
completion: the C1 counterexample input. -/
def demoCancelledHalfDone : Booking :=
  { demoBooking with status := .cancelled, completedByProvider := true }

/-- Counterexample to C1 as stated: on a booking whose status is the
terminal cancelled, the customer marking completion is accepted by the
interactive completion path and mutates status to completed, an edge
absent from the section 4.1 table (cancelled has no outgoing edges). -/
theorem interactiveTransitions_counterexample :
    completionPipeline demoCancelledHalfDone [] 0 ⟨some true, none⟩ 10 false 500 =
      .ok ({ demoCancelledHalfDone with
              completedByCustomer := true
              status := .completed
              reviewEligible := true
              reviewEligibleUntil := some (500 + 14 * msPerDay)
              updatedAt := 500 },
        some ⟨1, .cancelled, .completed, 10, 500,
          some "Both parties marked as complete"⟩) ∧
    demoCancelledHalfDone.status = .cancelled ∧
    allowedTransitions .cancelled = [] := by
  refine ⟨by decide, by decide, by decide⟩

/-- The demo booking still in pending. -/
def demoPendingBooking : Booking := { demoBooking with status := .pending }

/-- The pipeline outcome of the C1 witness request. -/
def demoCancelOutcome : Booking × HistoryEntry × PenaltyAttachment :=
  ((updateBookingStatus demoPendingBooking ⟨.cancelled, none⟩ 10 500).1,
   (updateBookingStatus demoPendingBooking ⟨.cancelled, none⟩ 10 500).2,
   calculateCancellationPenalties demoPendingBooking (some .cancelled) 10 500)

/-- Witness for the amended C1: customer 10 cancelling the pending demo
booking through the status pipeline lands on an edge of the table. -/
theorem interactiveTransitions_amended_witness :
    updateStatusPipeline demoPendingBooking [] 0 ⟨.cancelled, none⟩ 10 false 500 =
      .ok demoCancelOutcome ∧
    demoCancelOutcome.1.status ∈ allowedTransitions demoPendingBooking.status :=
  ⟨by rfl,
    (interactiveTransitions_amended demoPendingBooking [] 0 10 false 500).1
      ⟨.cancelled, none⟩ demoCancelOutcome (by rfl)⟩

/-- Helper: the manipulation detector never blocks a request whose
body carries no status field (its hard-block flag needs a requested
cancelled or no_show_customer status). -/
theorem detectManipulationAttempts_noStatus_ok (b : Booking)
    (hist : List HistoryEntry) (recentNoShows : Nat)
    (reason : Option String) (userId now : Int) :
    detectManipulationAttempts b hist recentNoShows none reason userId now =
      .ok () := by
  unfold detectManipulationAttempts manipulationFlags
  by_cases huid : userId = 0
  · rw [if_pos huid]
  rw [if_neg huid]
  rw [if_neg]
  simp only [List.mem_append]
  push_neg
  refine ⟨⟨⟨?_, ?_⟩, ?_⟩, ?_⟩
  · split
    · split
      · simp
      · simp
    · simp
  · rw [if_neg]
    · simp
    · simp
  · rw [if_neg]
    · simp
    · simp
  · rw [if_neg]
    · simp
    · simp

/-- Claim C4 (amended): a dispute-creation request carrying
hasDispute = true is accepted only on a completed or in_progress
booking with a non-empty reason; hasDispute = false is always
rejected; every accepted creation sets hasDispute, disputeStatus =
OPEN and status = disputed; but a request whose body omits the
hasDispute field bypasses the validator and is accepted for any party
regardless of current status or reason. -/
theorem validateDisputeCreation_spec (b : Booking) (hist : List HistoryEntry)
    (recentNoShows : Nat) (req : DisputeRequest) (userId : Int)
    (isAdmin : Bool) (now : Int) :
    (∀ out, req.hasDispute = some true →
        disputePipeline b hist recentNoShows req userId isAdmin now =
          .ok out →
        (b.status = .completed ∨ b.status = .in_progress) ∧
        req.disputeReason ≠ none ∧ req.disputeReason ≠ some "")
  ∧ (req.hasDispute = some false →
        ∀ out, disputePipeline b hist recentNoShows req userId isAdmin now ≠
          .ok out)
  ∧ (∀ out,
        disputePipeline b hist recentNoShows req userId isAdmin now =
          .ok out →
        out.1.hasDispute = true ∧ out.1.disputeStatus = some .OPEN ∧
        out.1.status = .disputed)
  ∧ (req.hasDispute = none →
        (b.providerUserId = userId ∨ b.customerId = userId ∨ isAdmin = true) →
        disputePipeline b hist recentNoShows req userId isAdmin now =
          .ok (handleDispute b req userId now)) := by
  refine ⟨?_, ?_, ?_, ?_⟩
  · intro out hd hok
    obtain ⟨hval, _⟩ := disputePipeline_ok_parts b hist recentNoShows
      req userId isAdmin now out hok
    unfold validateDisputeCreation at hval
    rw [hd] at hval
    split_ifs at hval with h1 h2 h3
    refine ⟨?_, ?_, ?_⟩
    · rcases not_and_or.mp h3 with h | h
      · exact Or.inl (not_not.mp h)
      · exact Or.inr (not_not.mp h)
    · exact fun h => h1 (Or.inl h)
    · exact fun h => h1 (Or.inr h)
  · intro hd out hok
    obtain ⟨hval, _⟩ := disputePipeline_ok_parts b hist recentNoShows
      req userId isAdmin now out hok
    unfold validateDisputeCreation at hval
    rw [hd] at hval
    simp at hval
  · intro out hok
    obtain ⟨_, hout⟩ := disputePipeline_ok_parts b hist recentNoShows
      req userId isAdmin now out hok
    rw [hout]
    exact ⟨rfl, rfl, rfl⟩
  · intro hd hown
    unfold disputePipeline
    have h1 : validateBookingOwnership b userId isAdmin = .ok () := by
      unfold validateBookingOwnership
      rw [if_pos]
      rcases hown with h | h | h
      · exact Or.inl h
      · exact Or.inr (Or.inl h)
      · exact Or.inr (Or.inr (by simp [h]))
    rw [h1, detectManipulationAttempts_noStatus_ok]
    have h3 : validateDisputeCreation b req userId = .ok () := by
      unfold validateDisputeCreation
      rw [hd]
    rw [h3]

/-- Counterexample to C4 as stated: a dispute request by the customer
on a pending booking, with no hasDispute field and no reason, is
accepted and moves the booking to disputed even though pending is
neither completed nor in_progress and no reason was supplied. -/
theorem validateDisputeCreation_counterexample :
    disputePipeline demoPendingBooking [] 0 ⟨none, none⟩ 10 false 500 =
      .ok (handleDispute demoPendingBooking ⟨none, none⟩ 10 500) ∧
    demoPendingBooking.status = .pending ∧
    (handleDispute demoPendingBooking ⟨none, none⟩ 10 500).1.hasDispute = true ∧
    (handleDispute demoPendingBooking ⟨none, none⟩ 10 500).1.status = .disputed ∧
    (⟨none, none⟩ : DisputeRequest).disputeReason = none :=
  ⟨by rfl, by decide, by decide, by decide, by decide⟩

/-- A completed booking carrying an open dispute request, used by the
C4 witness. -/
def demoCompletedBooking : Booking := { demoBooking with status := .completed }

/-- Witness for the amended C4: a validated dispute request (hasDispute
present and true, non-empty reason) on a completed booking is accepted
and the preconditions hold. -/
theorem validateDisputeCreation_spec_witness :
    (⟨some true, some "bad service"⟩ : DisputeRequest).hasDispute = some true ∧
    disputePipeline demoCompletedBooking [] 0 ⟨some true, some "bad service"⟩
        10 false 500 =
      .ok (handleDispute demoCompletedBooking ⟨some true, some "bad service"⟩
        10 500) ∧
    (demoCompletedBooking.status = .completed ∨
      demoCompletedBooking.status = .in_progress) :=
  ⟨by decide, by rfl,
    ((validateDisputeCreation_spec demoCompletedBooking [] 0
        ⟨some true, some "bad service"⟩ 10 false 500).1
      (handleDispute demoCompletedBooking ⟨some true, some "bad service"⟩ 10 500)
      (by decide) (by rfl)).1⟩

/-- Claim C5 (amended): an admin resolution on a booking without an
active dispute always fails with a 400-class error and leaves the
booking unchanged; on an active dispute, resolved_for_customer or
resolved_for_provider completes the booking and opens a fresh 14-day
review window, closed_no_resolution cancels it without review
eligibility, and the remaining DisputeStatus value OPEN sets status to
disputed (every accepted resolution carries its history entry); a
resolution value outside the DisputeStatus enum is rejected with a 400
validation error, with no state change and no history entry. -/
theorem resolveDispute_spec (b : Booking) (resolution : Option String)
    (userId : Option Int) (now : Int) :
    (b.hasDispute = false →
        ∃ msg, resolveDispute b resolution userId true now =
          .error ⟨400, msg⟩)
  ∧ (∀ res, resolution.bind parseDisputeStatus = some res →
      b.hasDispute = true →
      ∀ b2 entry,
        resolveDispute b resolution userId true now = .ok (b2, entry) →
        ((res = .RESOLVED_FOR_CUSTOMER ∨ res = .RESOLVED_FOR_PROVIDER →
            b2.status = .completed ∧ b2.reviewEligible = true ∧
            b2.reviewEligibleUntil = some (now + 14 * msPerDay))
         ∧ (res = .CLOSED_NO_RESOLUTION →
            b2.status = .cancelled ∧ b2.reviewEligible = false)
         ∧ (res = .OPEN → b2.status = .disputed)
         ∧ entry = ⟨b.id, b.status, resolutionNewStatus res,
             userId.getD 0, now, some "Dispute resolved"⟩))
  ∧ (resolution.bind parseDisputeStatus = none →
        resolveDispute b resolution userId true now =
          .error ⟨400, "Valid resolution status is required"⟩) := by
  refine ⟨?_, ?_, ?_⟩
  · intro hfalse
    cases hres : resolution.bind parseDisputeStatus with
    | none =>
      refine ⟨"Valid resolution status is required", ?_⟩
      unfold resolveDispute
      simp [hres]
    | some res =>
      refine ⟨"This booking has no active dispute", ?_⟩
      unfold resolveDispute
      simp [hres, hfalse]
  · intro res hres htrue b2 entry hok
    unfold resolveDispute at hok
    simp only [hres] at hok
    rw [if_neg (by simp), if_neg (not_not_intro htrue)] at hok
    rw [Except.ok.injEq, Prod.mk.injEq] at hok
    obtain ⟨hb2, hentry⟩ := hok
    subst hb2
    subst hentry
    refine ⟨?_, ?_, ?_, rfl⟩
    · intro hcase
      refine ⟨?_, ?_, ?_⟩
      · simp [resolutionNewStatus, hcase]
      · simp [resolutionReviewEligible, hcase]
      · simp only []
        rw [if_pos]
        simp [resolutionReviewEligible, hcase]
    · intro hcase
      subst hcase
      refine ⟨by rfl, by rfl⟩
    · intro hcase
      subst hcase
      rfl
  · intro hres
    unfold resolveDispute
    simp [hres]

/-- A booking with an open dispute, used by the C5 theorems. -/
def demoDisputedBooking : Booking :=
  { demoBooking with
      status := .disputed
      hasDispute := true
      disputeStatus := some .OPEN }

/-- Counterexample to C5 as stated: an admin resolution with the value
banana, which is not a DisputeStatus value, on a booking with an
active dispute is rejected outright with a 400 validation error, so
no history entry is recorded, contrary to the claim that any other
resolution value still records a history entry. -/
theorem resolveDispute_counterexample :
    demoDisputedBooking.hasDispute = true ∧
    parseDisputeStatus "banana" = none ∧
    resolveDispute demoDisputedBooking (some "banana") (some 99) true 500 =
      .error ⟨400, "Valid resolution status is required"⟩ :=
  ⟨by decide, by decide, by decide⟩

/-- The booking state after the C5 witness resolution. -/
def demoClosedResolvedBooking : Booking :=
  { demoDisputedBooking with
      disputeStatus := some .CLOSED_NO_RESOLUTION
      disputeResolvedAt := some 500
      status := .cancelled
      reviewEligible := false
      updatedAt := 500 }

/-- The history entry of the C5 witness resolution. -/
def demoClosedResolvedEntry : HistoryEntry :=
  ⟨1, .disputed, .cancelled, 99, 500, some "Dispute resolved"⟩

/-- Witness for the amended C5: admin 99 closes the demo dispute with
closed_no_resolution; the booking is cancelled and not review
eligible. -/
theorem resolveDispute_spec_witness :
    (some "CLOSED_NO_RESOLUTION" : Option String).bind parseDisputeStatus =
      some .CLOSED_NO_RESOLUTION ∧
    demoDisputedBooking.hasDispute = true ∧
    resolveDispute demoDisputedBooking (some "CLOSED_NO_RESOLUTION")
        (some 99) true 500 =
      .ok (demoClosedResolvedBooking, demoClosedResolvedEntry) ∧
    demoClosedResolvedBooking.status = .cancelled ∧
    demoClosedResolvedBooking.reviewEligible = false :=
  ⟨by decide, by decide, by rfl,
    ((resolveDispute_spec demoDisputedBooking (some "CLOSED_NO_RESOLUTION")
        (some 99) 500).2.1 .CLOSED_NO_RESOLUTION (by decide) (by decide)
      demoClosedResolvedBooking demoClosedResolvedEntry (by rfl)).2.1 rfl⟩

/-- Helper: a booking updated by the sweep is no longer selectable. -/
theorem sweepSelected_autoCompleteUpdate_false (now now2 : Int) (b : Booking) :
    sweepSelected now2 (autoCompleteUpdate now b) = false := by
  unfold sweepSelected autoCompleteUpdate
  simp

/-- Claim C7: the sweep selects exactly the in_progress bookings stale
for more than 72 hours with exactly one completion flag set; each
selected booking is force-completed with both flags, autoCompletedAt,
a 14-day review window and the system history row (actor 0, reason
Auto-completed after 72 hours); unselected bookings are untouched; and
a second run on the result at the same instant selects nothing. -/
theorem autoCompleteBookings_spec (now : Int) (st : BookingStore) :
    (∀ b, sweepSelected now b = true ↔
        (b.status = .in_progress ∧ b.updatedAt < now - 72 * msPerHour ∧
         ((b.completedByCustomer = true ∧ b.completedByProvider = false) ∨
          (b.completedByCustomer = false ∧ b.completedByProvider = true))))
  ∧ (∀ b, b ∈ st.bookings → sweepSelected now b = true →
        autoCompleteUpdate now b ∈ (autoCompleteBookings now st).bookings ∧
        autoCompleteHistoryEntry now b ∈ (autoCompleteBookings now st).history ∧
        (autoCompleteUpdate now b).completedByCustomer = true ∧
        (autoCompleteUpdate now b).completedByProvider = true ∧
        (autoCompleteUpdate now b).status = .completed ∧
        (autoCompleteUpdate now b).autoCompletedAt = some now ∧
        (autoCompleteUpdate now b).reviewEligible = true ∧
        (autoCompleteUpdate now b).reviewEligibleUntil =
          some (now + 14 * msPerDay) ∧
        (autoCompleteHistoryEntry now b).changedBy = 0 ∧
        (autoCompleteHistoryEntry now b).reason =
          some "Auto-completed after 72 hours")
  ∧ (∀ b, b ∈ st.bookings → sweepSelected now b = false →
        b ∈ (autoCompleteBookings now st).bookings)
  ∧ ((autoCompleteBookings now st).bookings.filter (sweepSelected now) = []) := by
  refine ⟨?_, ?_, ?_, ?_⟩
  · intro b
    unfold sweepSelected
    constructor
    · intro h
      simpa using h
    · intro h
      simpa using h
  · intro b hmem hsel
    refine ⟨?_, ?_, rfl, rfl, rfl, rfl, rfl, rfl, rfl, rfl⟩
    · unfold autoCompleteBookings
      have hfun : (fun x => if sweepSelected now x then autoCompleteUpdate now x
          else x) b = autoCompleteUpdate now b := by
        simp [hsel]
      rw [← hfun]
      exact List.mem_map_of_mem _ hmem
    · unfold autoCompleteBookings
      simp only [List.mem_append]
      right
      exact List.mem_map_of_mem _ (List.mem_filter.mpr ⟨hmem, hsel⟩)
  · intro b hmem hsel
    unfold autoCompleteBookings
    have hfun : (fun x => if sweepSelected now x then autoCompleteUpdate now x
        else x) b = b := by
      simp [hsel]
    rw [← hfun]
    exact List.mem_map_of_mem _ hmem
  · rw [List.filter_eq_nil_iff]
    intro b hmem
    unfold autoCompleteBookings at hmem
    simp only [List.mem_map] at hmem
    obtain ⟨a, _, ha⟩ := hmem
    by_cases hsel : sweepSelected now a = true
    · rw [if_pos hsel] at ha
      rw [← ha]
      simp [sweepSelected_autoCompleteUpdate_false]
    · rw [if_neg (by simp [hsel])] at ha
      rw [← ha]
      simp [hsel]

/-- A stale in_progress booking the customer already marked complete:
matches the sweep selection. -/
def demoStaleBooking : Booking :=
  { demoBooking with
      id := 7
      status := .in_progress
      completedByCustomer := true
      updatedAt := 0 }

/-- A store holding only the stale demo booking. -/
def demoSweepStore : BookingStore := ⟨[demoStaleBooking], []⟩

/-- The sweep is run at 300000000 ms, more than 72 hours after the
stale update at 0. -/
def demoSweepNow : Int := 300000000

/-- Witness for C7: the stale demo booking is selected, force-completed
with the system history row, and the resulting store selects nothing. -/
theorem autoCompleteBookings_spec_witness :
    demoStaleBooking ∈ demoSweepStore.bookings ∧
    sweepSelected demoSweepNow demoStaleBooking = true ∧
    (autoCompleteUpdate demoSweepNow demoStaleBooking ∈
        (autoCompleteBookings demoSweepNow demoSweepStore).bookings ∧
      autoCompleteHistoryEntry demoSweepNow demoStaleBooking ∈
        (autoCompleteBookings demoSweepNow demoSweepStore).history ∧
      (autoCompleteUpdate demoSweepNow demoStaleBooking).completedByCustomer =
        true ∧
      (autoCompleteUpdate demoSweepNow demoStaleBooking).completedByProvider =
        true ∧
      (autoCompleteUpdate demoSweepNow demoStaleBooking).status = .completed ∧
      (autoCompleteUpdate demoSweepNow demoStaleBooking).autoCompletedAt =
        some demoSweepNow ∧
      (autoCompleteUpdate demoSweepNow demoStaleBooking).reviewEligible = true ∧
      (autoCompleteUpdate demoSweepNow demoStaleBooking).reviewEligibleUntil =
        some (demoSweepNow + 14 * msPerDay) ∧
      (autoCompleteHistoryEntry demoSweepNow demoStaleBooking).changedBy = 0 ∧
      (autoCompleteHistoryEntry demoSweepNow demoStaleBooking).reason =
        some "Auto-completed after 72 hours") :=
  ⟨by decide, by decide,
    (autoCompleteBookings_spec demoSweepNow demoSweepStore).2.1
      demoStaleBooking (by decide) (by decide)⟩

/-- Claim C9 (amended): with a fallible store, the sweep processes the
selected bookings in order only up to the first failing update; the
failure aborts the remaining batch (everything after the first failing
booking stays unprocessed) and the run still returns normally, since
the catch swallows the error. -/
theorem autoCompleteBookingsTryCatch_spec (now : Int)
    (updateFails : Int → Bool) (st : BookingStore) :
    autoCompleteBookingsTryCatch now updateFails st =
      sweepProcess now updateFails
        ((st.bookings.filter (sweepSelected now)).takeWhile
          (fun b => !updateFails b.id))
        st := by
  unfold autoCompleteBookingsTryCatch
  generalize (st.bookings.filter (sweepSelected now)) = sel
  induction sel generalizing st with
  | nil => rfl
  | cons b rest ih =>
    by_cases hf : updateFails b.id = true
    · have hL : sweepProcess now updateFails (b :: rest) st = st := by
        conv_lhs => rw [sweepProcess]
        rw [if_pos hf]
      have hT : (b :: rest).takeWhile (fun x => !updateFails x.id) = [] := by
        simp [List.takeWhile, hf]
      rw [hL, hT]
      rfl
    · have hL : sweepProcess now updateFails (b :: rest) st =
          sweepProcess now updateFails rest (sweepApplyOne now st b) := by
        conv_lhs => rw [sweepProcess]
        rw [if_neg hf]
      have hT : (b :: rest).takeWhile (fun x => !updateFails x.id) =
          b :: rest.takeWhile (fun x => !updateFails x.id) := by
        simp [List.takeWhile, hf]
      have hR : sweepProcess now updateFails
          (b :: rest.takeWhile (fun x => !updateFails x.id)) st =
          sweepProcess now updateFails
            (rest.takeWhile (fun x => !updateFails x.id))
            (sweepApplyOne now st b) := by
        conv_lhs => rw [sweepProcess]
        rw [if_neg hf]
      rw [hL, hT, hR]
      exact ih (sweepApplyOne now st b)

/-- A second stale selected booking for the C9 counterexample. -/
def demoStaleBooking2 : Booking := { demoStaleBooking with id := 8 }

/-- A store with two selected bookings, 7 and 8. -/
def demoSweepStore2 : BookingStore :=
  ⟨[demoStaleBooking, demoStaleBooking2], []⟩

/-- Counterexample to C9 as stated: when the update of booking 7 fails,
the sweep stops, leaving booking 8 unprocessed (still in_progress,
no history row appended), instead of continuing with the remaining
selected bookings. -/
theorem autoCompleteBookingsTryCatch_counterexample :
    sweepSelected demoSweepNow demoStaleBooking2 = true ∧
    autoCompleteBookingsTryCatch demoSweepNow (fun i => i = 7)
        demoSweepStore2 = demoSweepStore2 ∧
    demoStaleBooking2 ∈ demoSweepStore2.bookings ∧
    (autoCompleteBookingsTryCatch demoSweepNow (fun i => i = 7)
        demoSweepStore2).history = [] :=
  ⟨by decide, by decide, by decide, by decide⟩

/-- Helper: decomposition of an accepted review request into the three
middleware passes and the created store. -/
theorem createReviewPipeline_ok_parts (st : ReviewStore) (req : ReviewRequest)
    (userId now : Int) (st2 : ReviewStore)
    (hok : createReviewPipeline st req userId now = .ok st2) :
    ∃ rc b, validateReviewInput req = .ok rc ∧
      validateReviewEligibility st req userId now = .ok b ∧
      detectReviewManipulation st req userId now = .ok () ∧
      st2 = createReview st b rc.1 rc.2 now := by
  unfold createReviewPipeline at hok
  split at hok
  · simp at hok
  next rc hin =>
    split at hok
    · simp at hok
    next b helig =>
      split at hok
      · simp at hok
      next u hdet =>
        rw [Except.ok.injEq] at hok
        exact ⟨rc, b, hin, helig, by cases u; exact hdet, hok.symm⟩

/-- Helper: what an accepted input validation says about the request. -/
theorem validateReviewInput_ok_cond (req : ReviewRequest)
    (rc : Rat × Option String) (h : validateReviewInput req = .ok rc) :
    ∃ r, req.rating = some r ∧ 1 ≤ r ∧ r ≤ 5 ∧ rc.1 = r ∧
      (∀ c, req.comment = some c → c.length ≤ 1000) := by
  unfold validateReviewInput at h
  cases hr : req.rating with
  | none =>
    rw [hr] at h
    simp at h
  | some r =>
    rw [hr] at h
    simp only [] at h
    split_ifs at h with h1
    next =>
      refine ⟨r, rfl, ?_, ?_, ?_, ?_⟩
      · push_neg at h1
        exact h1.1
      · push_neg at h1
        exact h1.2
      · cases hc : req.comment with
        | none =>
          rw [hc] at h
          simp only [] at h
          rw [Except.ok.injEq] at h
          rw [← h]
        | some c =>
          rw [hc] at h
          simp only [] at h
          split_ifs at h with h2 h3 <;>
            (rw [Except.ok.injEq] at h; rw [← h])
      · intro c hc
        rw [hc] at h
        simp only [] at h
        split_ifs at h with h2 h3 <;> omega

/-- Helper: what an accepted eligibility check says about the store. -/
theorem validateReviewEligibility_ok_cond (st : ReviewStore)
    (req : ReviewRequest) (userId now : Int) (b : Booking)
    (h : validateReviewEligibility st req userId now = .ok b) :
    ∃ bid, req.bookingId = some bid ∧
      st.bookings.find? (fun x => x.id = bid) = some b ∧
      b.customerId = userId ∧ b.status = .completed ∧
      b.reviewEligible = true ∧
      (b.reviewEligibleUntil = none ∨
        ∃ u, b.reviewEligibleUntil = some u ∧ now ≤ u) ∧
      st.reviews.find? (fun r => r.bookingId = bid) = none := by
  unfold validateReviewEligibility at h
  cases hbid : req.bookingId with
  | none =>
    rw [hbid] at h
    simp at h
  | some bid =>
    rw [hbid] at h
    simp only [] at h
    cases hfind : st.bookings.find? (fun x => x.id = bid) with
    | none =>
      rw [hfind] at h
      simp at h
    | some b0 =>
      rw [hfind] at h
      simp only [] at h
      split_ifs at h with h1 h2 h3 h4 h5
      rw [Except.ok.injEq] at h
      subst h
      refine ⟨bid, rfl, hfind, not_not.mp h1, not_not.mp h2, ?_, ?_, ?_⟩
      · by_contra hfalse
        exact h3 (by simp [hfalse])
      · cases hu : b0.reviewEligibleUntil with
        | none => exact Or.inl rfl
        | some u =>
          refine Or.inr ⟨u, rfl, ?_⟩
          rw [hu] at h4
          simp at h4
          exact h4
      · cases hrev : st.reviews.find? (fun r => r.bookingId = bid) with
        | none => rfl
        | some rv =>
          exfalso
          exact h5 (by rw [hrev]; simp)

/-- Helper: what an accepted flooding check says about the count. -/
theorem detectReviewManipulation_ok_cond (st : ReviewStore)
    (req : ReviewRequest) (userId now : Int) (bid : Int)
    (hbid : req.bookingId = some bid)
    (h : detectReviewManipulation st req userId now = .ok ()) :
    countRecentReviews st userId now < 5 := by
  unfold detectReviewManipulation at h
  rw [if_neg (by simp [hbid])] at h
  split_ifs at h with h1
  omega

/-- Claim C8 (amended): a review is created exactly when the requester
is the customer of a completed, review-eligible booking whose window
has not yet passed (reviewEligibleUntil null or not earlier than now),
no review exists for the booking, the rating is present and within 1
to 5, the comment fits in 1000 characters and the customer has posted
fewer than 5 reviews in the last 10 minutes; on acceptance exactly one
review row is appended, uniqueness of reviews per booking is
preserved, and the provider rating is recomputed as the exact mean of
all ratings of that providers reviews, the new one included. -/
theorem createReview_spec (st : ReviewStore) (req : ReviewRequest)
    (userId now : Int) :
    ((∃ st2, createReviewPipeline st req userId now = .ok st2) ↔
      ((∃ r, req.rating = some r ∧ 1 ≤ r ∧ r ≤ 5) ∧
       (∀ c, req.comment = some c → c.length ≤ 1000) ∧
       (∃ bid b, req.bookingId = some bid ∧
         st.bookings.find? (fun x => x.id = bid) = some b ∧
         b.customerId = userId ∧ b.status = .completed ∧
         b.reviewEligible = true ∧
         (b.reviewEligibleUntil = none ∨
           ∃ u, b.reviewEligibleUntil = some u ∧ now ≤ u) ∧
         st.reviews.find? (fun r => r.bookingId = bid) = none) ∧
       countRecentReviews st userId now < 5))
  ∧ (∀ bid b r st2, req.bookingId = some bid →
      st.bookings.find? (fun x => x.id = bid) = some b →
      req.rating = some r →
      createReviewPipeline st req userId now = .ok st2 →
      (∃ cmt, st2.reviews = st.reviews ++ [⟨b.id, r, cmt, now⟩]) ∧
      st2.bookings = st.bookings ∧
      (∀ p, p ∈ st2.providers → p.id = b.providerId →
        p.rating = some
          (((providerReviews st2 b.providerId).map Review.rating).sum /
            ((providerReviews st2 b.providerId).length : Rat))) ∧
      (st.reviews.Pairwise (fun r1 r2 => r1.bookingId ≠ r2.bookingId) →
        st2.reviews.Pairwise (fun r1 r2 => r1.bookingId ≠ r2.bookingId))) := by
  constructor
  · constructor
    · rintro ⟨st2, hok⟩
      obtain ⟨rc, b, hin, helig, hdet, _⟩ :=
        createReviewPipeline_ok_parts st req userId now st2 hok
      obtain ⟨r, hr, hr1, hr5, _, hcomment⟩ :=
        validateReviewInput_ok_cond req rc hin
      obtain ⟨bid, hbid, hfind, hcust, hstat, helg, huntil, hnorev⟩ :=
        validateReviewEligibility_ok_cond st req userId now b helig
      exact ⟨⟨r, hr, hr1, hr5⟩, hcomment,
        ⟨bid, b, hbid, hfind, hcust, hstat, helg, huntil, hnorev⟩,
        detectReviewManipulation_ok_cond st req userId now bid hbid hdet⟩
    · rintro ⟨⟨r, hr, hr1, hr5⟩, hcomment,
        ⟨bid, b, hbid, hfind, hcust, hstat, helg, huntil, hnorev⟩, hcount⟩
      have hin : ∃ cmt, validateReviewInput req = .ok (r, cmt) := by
        unfold validateReviewInput
        rw [hr]
        simp only []
        rw [if_neg (by push_neg; exact ⟨hr1, hr5⟩)]
        cases hc : req.comment with
        | none => exact ⟨none, rfl⟩
        | some c =>
          simp only []
          rw [if_neg (by push_neg; exact hcomment c hc)]
          split_ifs with h2
          · exact ⟨none, rfl⟩
          · exact ⟨some c.trim, rfl⟩
      have heligok : validateReviewEligibility st req userId now = .ok b := by
        unfold validateReviewEligibility
        rw [hbid]
        simp only []
        rw [hfind]
        simp only []
        have huf : (b.reviewEligibleUntil.elim false fun u => decide (u < now)) =
            false := by
          rcases huntil with h | ⟨u, hu, hle⟩
          · rw [h]
            rfl
          · rw [hu]
            simp [not_lt.mpr hle]
        rw [if_neg (not_not_intro hcust), if_neg (not_not_intro hstat),
          if_neg (by simp [helg]), if_neg (by simp [huf]),
          if_neg (by simp [hnorev])]
      have hdet : detectReviewManipulation st req userId now = .ok () := by
        unfold detectReviewManipulation
        rw [if_neg (by simp [hbid]), if_neg (by omega)]
      obtain ⟨cmt, hin⟩ := hin
      refine ⟨createReview st b r cmt now, ?_⟩
      unfold createReviewPipeline
      rw [hin, heligok, hdet]
  · intro bid b r st2 hbid hfind hr hok
    obtain ⟨rc, b0, hin, helig, _, hst2⟩ :=
      createReviewPipeline_ok_parts st req userId now st2 hok
    obtain ⟨bid0, hbid0, hfind0, _, _, _, _, hnorev⟩ :=
      validateReviewEligibility_ok_cond st req userId now b0 helig
    rw [hbid] at hbid0
    rw [Option.some.injEq] at hbid0
    subst hbid0
    rw [hfind] at hfind0
    rw [Option.some.injEq] at hfind0
    subst hfind0
    obtain ⟨r0, hr0, _, _, hrc, _⟩ := validateReviewInput_ok_cond req rc hin
    rw [hr] at hr0
    rw [Option.some.injEq] at hr0
    have hrcr : rc.1 = r := by rw [hrc, hr0]
    have hbidb : b.id = bid := by
      have := List.find?_some hfind
      exact of_decide_eq_true this
    subst hst2
    refine ⟨?_, ?_, ?_, ?_⟩
    · exact ⟨rc.2, by rw [hrcr]; rfl⟩
    · rfl
    · intro p hp hpid
      unfold createReview at hp
      simp only [List.mem_map] at hp
      obtain ⟨q, _, hq⟩ := hp
      by_cases hqid : q.id = b.providerId
      · rw [if_pos hqid] at hq
        rw [← hq]
        rw [hrcr]
        rfl
      · rw [if_neg hqid] at hq
        rw [← hq] at hpid
        exact absurd hpid hqid
    · intro hpair
      have hsplit : (createReview st b rc.1 rc.2 now).reviews =
          st.reviews ++ [⟨b.id, rc.1, rc.2, now⟩] := rfl
      rw [hsplit, List.pairwise_append]
      refine ⟨hpair, List.pairwise_singleton _ _, ?_⟩
      intro rv hrv rv2 hrv2
      rw [List.mem_singleton] at hrv2
      subst hrv2
      rw [List.find?_eq_none] at hnorev
      have := hnorev rv hrv
      simp only [decide_eq_true_eq] at this
      rw [hbidb]
      simpa using this

/-- A completed, review-eligible booking with no expiry, used by the
C8 theorems. -/
def demoReviewBooking : Booking :=
  { demoBooking with
      status := .completed
      reviewEligible := true }

/-- A review store holding the eligible demo booking, no reviews and
its provider profile. -/
def demoReviewStore : ReviewStore :=
  ⟨[demoReviewBooking], [], [⟨3, none⟩]⟩

/-- Counterexample to C8 as stated: customer 10 asks to review booking
1, which satisfies every eligibility condition of the claim (customer
match, completed, eligible, no expiry, no existing review), yet no
review is created because the claim omits the input validation: the
request carries no rating and is rejected. -/
theorem createReview_counterexample :
    demoReviewBooking.customerId = 10 ∧
    demoReviewBooking.status = .completed ∧
    demoReviewBooking.reviewEligible = true ∧
    demoReviewBooking.reviewEligibleUntil = none ∧
    demoReviewStore.bookings.find? (fun x => x.id = 1) =
      some demoReviewBooking ∧
    demoReviewStore.reviews.find? (fun r => r.bookingId = 1) = none ∧
    createReviewPipeline demoReviewStore ⟨some 1, none, none⟩ 10 500 =
      .error ⟨400, "Rating is required"⟩ :=
  ⟨by decide, by decide, by decide, by decide, by decide, by decide, by decide⟩

/-- The C8 witness request: rating 5 on booking 1. -/
def demoReviewRequest : ReviewRequest := ⟨some 1, some 5, none⟩

/-- The store after the C8 witness review is created. -/
def demoReviewResult : ReviewStore :=
  createReview demoReviewStore demoReviewBooking 5 none 500

/-- Witness for the amended C8: the witness request is accepted and
appends exactly one review row for booking 1 with rating 5. -/
theorem createReview_spec_witness :
    demoReviewRequest.bookingId = some 1 ∧
    demoReviewStore.bookings.find? (fun x => x.id = 1) =
      some demoReviewBooking ∧
    demoReviewRequest.rating = some 5 ∧
    createReviewPipeline demoReviewStore demoReviewRequest 10 500 =
      .ok demoReviewResult ∧
    (∃ cmt, demoReviewResult.reviews =
      demoReviewStore.reviews ++ [⟨demoReviewBooking.id, 5, cmt, 500⟩]) :=
  ⟨by decide, by decide, by decide, by rfl,
    ((createReview_spec demoReviewStore demoReviewRequest 10 500).2
      1 demoReviewBooking 5 demoReviewResult (by decide) (by decide)
      (by decide) (by rfl)).1⟩

end UslugiBG
